import Mathlib

/-!
# KYC documents analysis handler

A shallow embedding of `handler/handler.go` (package `handler`) and a set of
theorems about the function `Handler`.

The handler is straight-line glue around four library facilities that are not
part of the repository: `encoding/json` (`Unmarshal`, `Marshal`), the AWS
session constructor, and the two Rekognition operations `DetectFaces` and
`CompareFaces`.  They are bundled in the record `Env`, and every theorem is
quantified over it.  The remote service may answer the same question
differently at different times, so its operations thread an explicit service
state.  Go `error` values are represented by their message text, a nil error
by `none`.
-/

namespace KycHandler

/-! ## Data model -/

/-- Request structure decoded from the body (handler.go, lines 14-18). -/
structure S3ImageDetailsRequest where
  Bucket : String
  SelfieImage : String
  DocumentImage : String
deriving DecidableEq, Repr

/-- Result structure (handler.go, lines 25-29); `FD` stands for
`rekognition.FaceDetail` and `CFO` for `rekognition.CompareFacesOutput`. -/
structure Result (FD CFO : Type) where
  SelfieDetails : FD
  DocumentFaceDetails : FD
  SelfieMatchesDocument : CFO

/-- Response structure (handler.go, lines 31-34). -/
structure Response (FD CFO : Type) where
  Message : String
  Result : Result FD CFO

/-- The fields of `events.APIGatewayProxyRequest`.  `Ctx` stands for
`events.APIGatewayProxyRequestContext`; Go maps are association lists. -/
structure APIGatewayProxyRequest (Ctx : Type) where
  Resource : String
  Path : String
  HTTPMethod : String
  Headers : List (String × String)
  MultiValueHeaders : List (String × List String)
  QueryStringParameters : List (String × String)
  MultiValueQueryStringParameters : List (String × List String)
  PathParameters : List (String × String)
  StageVariables : List (String × String)
  RequestContext : Ctx
  Body : String
  IsBase64Encoded : Bool

/-- The fields of `events.APIGatewayProxyResponse`; a field the handler leaves
out of a composite literal keeps its zero value (nil map, empty string). -/
structure APIGatewayProxyResponse where
  StatusCode : Int
  Headers : List (String × String) := []
  MultiValueHeaders : List (String × List String) := []
  Body : String := ""
  IsBase64Encoded : Bool := false
deriving DecidableEq, Repr

/-- The field of `aws.Config` that the handler sets. -/
structure Config where
  Region : String
deriving DecidableEq, Repr

/-- The fields of `rekognition.S3Object` that the handler sets. -/
structure S3Object where
  Bucket : String
  Name : String
deriving DecidableEq, Repr

/-- The field of `rekognition.Image` that the handler sets. -/
structure Image where
  S3Object : KycHandler.S3Object
deriving DecidableEq, Repr

/-- The field of `rekognition.DetectFacesInput` that the handler sets. -/
structure DetectFacesInput where
  Image : KycHandler.Image
deriving DecidableEq, Repr

/-- The fields of `rekognition.CompareFacesInput` that the handler sets. -/
structure CompareFacesInput where
  SourceImage : KycHandler.Image
  TargetImage : KycHandler.Image
deriving DecidableEq, Repr

/-- The field of `rekognition.DetectFacesOutput` that the handler reads.  The
SDK fills the slice with non-nil pointers, so it is a list of records. -/
structure DetectFacesOutput (FD : Type) where
  FaceDetails : List FD

/-- A call on the Rekognition client, with the argument it was issued with. -/
inductive RemoteCall where
  | DetectFaces (input : DetectFacesInput)
  | CompareFaces (input : CompareFacesInput)
deriving DecidableEq, Repr

/-- The library facilities the handler calls.  `σ` is the state of the remote
service and of the SDK, `Sess` the session (the Rekognition client made from it
by `rekognition.New` is identified with it). -/
structure Env (σ Sess FD CFO : Type) where
  /-- `json.Unmarshal` into an `S3ImageDetailsRequest`. -/
  Unmarshal : String → Except String S3ImageDetailsRequest
  /-- `session.NewSession`. -/
  NewSession : Config → σ → Except String Sess × σ
  /-- `(*Rekognition).DetectFaces`. -/
  DetectFaces : Sess → DetectFacesInput → σ → Except String (DetectFacesOutput FD) × σ
  /-- `(*Rekognition).CompareFaces`. -/
  CompareFaces : Sess → CompareFacesInput → σ → Except String CFO × σ
  /-- `json.Marshal` on a `rekognition.FaceDetail`. -/
  MarshalFaceDetail : FD → Except String String
  /-- `json.Marshal` on a `rekognition.CompareFacesOutput`. -/
  MarshalCompareFacesOutput : CFO → Except String String

/-- What one invocation of `Handler` produces: the two Go return values, and
what it did on the way (remote calls in the order issued, log lines in the
order written, the service state it leaves behind). -/
structure Run (σ : Type) where
  response : APIGatewayProxyResponse
  err : Option String
  calls : List RemoteCall
  log : List String
  state : σ

/-! ## JSON encoding of the response -/

/-- Lower-case hexadecimal digit. -/
def hexDigit (n : Nat) : Char :=
  if n < 10 then Char.ofNat (48 + n) else Char.ofNat (87 + n)

/-- The four-digit `\uXXXX` escape of a code point below 65536. -/
def unicodeEscape (n : Nat) : List Char :=
  [Char.ofNat 92, Char.ofNat 117, hexDigit (n / 4096 % 16), hexDigit (n / 256 % 16),
    hexDigit (n / 16 % 16), hexDigit (n % 16)]

/-- How `json.Marshal` writes one character of a string (HTML escaping on, as
is the default): quote and backslash are escaped with a backslash, newline,
carriage return and tab have their short forms, the other control characters,
the characters `<`, `>`, `&` and the two Unicode line separators are written as
`\uXXXX`, and every other character stands for itself.  (Go 1.22 and later
shorten backspace and form feed as well; no string of this program has one.) -/
def encodeRune (c : Char) : List Char :=
  let n := c.toNat
  if n = 34 then [Char.ofNat 92, Char.ofNat 34]
  else if n = 92 then [Char.ofNat 92, Char.ofNat 92]
  else if n = 10 then [Char.ofNat 92, Char.ofNat 110]
  else if n = 13 then [Char.ofNat 92, Char.ofNat 114]
  else if n = 9 then [Char.ofNat 92, Char.ofNat 116]
  else if n < 32 ∨ n = 60 ∨ n = 62 ∨ n = 38 ∨ n = 8232 ∨ n = 8233 then unicodeEscape n
  else [c]

/-- The `json.Marshal` encoding of a string. -/
def marshalString (s : String) : String :=
  String.mk ([Char.ofNat 34] ++ (s.data.map encodeRune).flatten ++ [Char.ofNat 34])

/-- The `json.Marshal` encoding of a `Result`: an object with the keys of the
struct tags in declaration order; the first field that fails to encode makes
the whole encoding fail with its error. -/
def marshalResult {FD CFO : Type} (encFD : FD → Except String String)
    (encCFO : CFO → Except String String) (r : Result FD CFO) : Except String String :=
  match encFD r.SelfieDetails with
  | .error e => .error e
  | .ok a =>
    match encFD r.DocumentFaceDetails with
    | .error e => .error e
    | .ok b =>
      match encCFO r.SelfieMatchesDocument with
      | .error e => .error e
      | .ok c =>
        .ok ("\x7b\"selfieDetails\":" ++ a ++ ",\"documentFaceDetails\":" ++ b
          ++ ",\"selfieMatchesDocument\":" ++ c ++ "\x7d")

/-- The `json.Marshal` encoding of a `Response`. -/
def marshalResponse {FD CFO : Type} (encFD : FD → Except String String)
    (encCFO : CFO → Except String String) (r : Response FD CFO) : Except String String :=
  match marshalResult encFD encCFO r.Result with
  | .error e => .error e
  | .ok res => .ok ("\x7b\"message\":" ++ marshalString r.Message ++ ",\"result\":" ++ res ++ "\x7d")

/-! ## The handler -/

/-- The function `Handler` (handler.go, lines 36-153).  `default : FD` is the
zero value of `rekognition.FaceDetail`. -/
def Handler {σ Sess FD CFO Ctx : Type} [Inhabited FD] (env : Env σ Sess FD CFO)
    (request : APIGatewayProxyRequest Ctx) (s0 : σ) : Run σ :=
  match env.Unmarshal request.Body with
  | .error err =>
    { response := { StatusCode := 400, Body := "Invalid request body" }
      err := none
      calls := []
      log := ["Error unmarshalling request body: " ++ err]
      state := s0 }
  | .ok s3ImageDetails =>
    match env.NewSession { Region := "us-east-1" } s0 with
    | (.error err, s1) =>
      { response := { StatusCode := 500 }
        err := some ("error creating rekognition session : " ++ err)
        calls := []
        log := ["Failed to create AWS session: " ++ err]
        state := s1 }
    | (.ok session, s1) =>
      let svc := session
      let checkSelfieInput : DetectFacesInput :=
        { Image := { S3Object := { Bucket := s3ImageDetails.Bucket
                                   Name := s3ImageDetails.SelfieImage } } }
      match env.DetectFaces svc checkSelfieInput s1 with
      | (.error err, s2) =>
        { response := { StatusCode := 500 }
          err := some ("error check selfie image: " ++ err)
          calls := [.DetectFaces checkSelfieInput]
          log := ["Failed to detect labels: " ++ err]
          state := s2 }
      | (.ok checkSelfie, s2) =>
        let selfieDetails : FD :=
          if checkSelfie.FaceDetails.length > 0 then checkSelfie.FaceDetails.headD default
          else default
        let checkIdentityDocumentInput : DetectFacesInput :=
          { Image := { S3Object := { Bucket := s3ImageDetails.Bucket
                                     Name := s3ImageDetails.DocumentImage } } }
        match env.DetectFaces svc checkIdentityDocumentInput s2 with
        | (.error err, s3) =>
          { response := { StatusCode := 500 }
            err := some ("error failed to check identity document : " ++ err)
            calls := [.DetectFaces checkSelfieInput, .DetectFaces checkIdentityDocumentInput]
            log := ["Failed to detect labels: " ++ err]
            state := s3 }
        | (.ok checkIdentityDocument, s3) =>
          let identityDocumentFaceDetails : FD :=
            if checkIdentityDocument.FaceDetails.length > 0 then
              checkIdentityDocument.FaceDetails.headD default
            else default
          let compareSelfieWithIDDocumentInput : CompareFacesInput :=
            { SourceImage := { S3Object := { Bucket := s3ImageDetails.Bucket
                                             Name := s3ImageDetails.DocumentImage } }
              TargetImage := { S3Object := { Bucket := s3ImageDetails.Bucket
                                             Name := s3ImageDetails.SelfieImage } } }
          match env.CompareFaces svc compareSelfieWithIDDocumentInput s3 with
          | (.error err, s4) =>
            { response := { StatusCode := 500 }
              err := some ("error failed to compare selfie with identity document : " ++ err)
              calls := [.DetectFaces checkSelfieInput, .DetectFaces checkIdentityDocumentInput,
                .CompareFaces compareSelfieWithIDDocumentInput]
              log := ["Failed to detect labels: " ++ err]
              state := s4 }
          | (.ok compareSelfieWithIdDocument, s4) =>
            let response : Response FD CFO :=
              { Message := "KYC Documents Analysis Results"
                Result := { SelfieDetails := selfieDetails
                            DocumentFaceDetails := identityDocumentFaceDetails
                            SelfieMatchesDocument := compareSelfieWithIdDocument } }
            match marshalResponse env.MarshalFaceDetail env.MarshalCompareFacesOutput response with
            | .error err =>
              { response := { StatusCode := 500 }
                err := some ("error marshalling response: " ++ err)
                calls := [.DetectFaces checkSelfieInput, .DetectFaces checkIdentityDocumentInput,
                  .CompareFaces compareSelfieWithIDDocumentInput]
                log := []
                state := s4 }
            | .ok body =>
              { response := { Headers := [("Content-Type", "application/json")]
                              StatusCode := 200
                              Body := body }
                err := none
                calls := [.DetectFaces checkSelfieInput, .DetectFaces checkIdentityDocumentInput,
                  .CompareFaces compareSelfieWithIDDocumentInput]
                log := []
                state := s4 }

/-! ## Vocabulary of the statements -/

/-- The argument of a face-detection call on the object `name` of `bucket`. -/
def detectInput (bucket name : String) : DetectFacesInput :=
  { Image := { S3Object := { Bucket := bucket, Name := name } } }

/-- The argument of a comparison call with the given source and target objects
of `bucket`. -/
def compareInput (bucket source target : String) : CompareFacesInput :=
  { SourceImage := { S3Object := { Bucket := bucket, Name := source } }
    TargetImage := { S3Object := { Bucket := bucket, Name := target } } }

/-- The success body of the interface description, for the JSON texts `a`, `b`
and `c` of the selfie record, the document record and the comparison record. -/
def successBody (a b c : String) : String :=
  "\x7b\"message\":\"KYC Documents Analysis Results\",\"result\":\x7b\"selfieDetails\":" ++ a
    ++ ",\"documentFaceDetails\":" ++ b ++ ",\"selfieMatchesDocument\":" ++ c ++ "\x7d\x7d"

/-- The response of a successful invocation with body `body`. -/
def okResponse (body : String) : APIGatewayProxyResponse :=
  { StatusCode := 200, Headers := [("Content-Type", "application/json")], Body := body }

/-- The steps of `Handler` whose failure is reported with an error. -/
inductive Step where
  | session
  | selfie
  | document
  | compare
  | encode
deriving DecidableEq, Repr

/-- The context text `Handler` puts in front of the underlying error at each
step: the format strings of its five `fmt.Errorf` calls, up to the verb. -/
def errorContext : Step → String
  | .session => "error creating rekognition session : "
  | .selfie => "error check selfie image: "
  | .document => "error failed to check identity document : "
  | .compare => "error failed to compare selfie with identity document : "
  | .encode => "error marshalling response: "

/-- Two answers to a detection call that differ at most in the faces after the
first: the same error, or face lists with the same first element (both empty,
or both starting with the same record), and the same service state. -/
def SameFirstFace {σ FD : Type} (r r' : Except String (DetectFacesOutput FD) × σ) : Prop :=
  r.2 = r'.2 ∧
  match r.1, r'.1 with
  | .ok o, .ok o' => o.FaceDetails.head? = o'.FaceDetails.head?
  | .error e, .error e' => e = e'
  | _, _ => False

/-! ## Scripted environments for concrete runs

Face records and comparison records are natural numbers standing for a record
identifier, `0` being the zero-valued record; record `7` stands for a record
that `json.Marshal` rejects (a NaN confidence).  The service state counts the
remote calls answered so far. -/

/-- A decoder for a handful of bodies: the three fields in two different
orders, the empty object, and everything else malformed. -/
def stubUnmarshal (body : String) : Except String S3ImageDetailsRequest :=
  if body = "\x7b\"bucket\":\"kyc\",\"selfieImage\":\"me.jpg\",\"documentImage\":\"id.jpg\"\x7d" then
    .ok { Bucket := "kyc", SelfieImage := "me.jpg", DocumentImage := "id.jpg" }
  else if body = "\x7b\"documentImage\":\"id.jpg\",\"selfieImage\":\"me.jpg\",\"bucket\":\"kyc\"\x7d" then
    .ok { Bucket := "kyc", SelfieImage := "me.jpg", DocumentImage := "id.jpg" }
  else if body = "\x7b\x7d" then
    .ok { Bucket := "", SelfieImage := "", DocumentImage := "" }
  else .error "unexpected end of JSON input"

/-- JSON text of the stub record `n`. -/
def stubJson (n : Nat) : String :=
  String.mk ("\x7b\"Id\":".data ++ [Char.ofNat (48 + n % 10)] ++ "\x7d".data)

/-- The scripted environment: `sess` is the outcome of the session
constructor, `first` and `second` are the answers to the first and to the
second detection call, `cmp` is the answer to the comparison. -/
def scripted (sess : Except String Unit) (first second : Except String (List Nat))
    (cmp : Except String Nat) : Env Nat Unit Nat Nat where
  Unmarshal := stubUnmarshal
  NewSession := fun _ n => (sess, n)
  DetectFaces := fun _ _ n =>
    (match (if n = 0 then first else second) with
      | .ok l => .ok { FaceDetails := l }
      | .error e => .error e, n + 1)
  CompareFaces := fun _ _ n => (cmp, n + 1)
  MarshalFaceDetail := fun n =>
    if n = 7 then .error "json: unsupported value: NaN" else .ok (stubJson n)
  MarshalCompareFacesOutput := fun n => .ok (stubJson n)

/-- A request with the given method, headers and body. -/
def stubRequest (method : String) (headers : List (String × String)) (body : String) :
    APIGatewayProxyRequest Unit :=
  { Resource := "/kyc", Path := "/kyc", HTTPMethod := method, Headers := headers
    MultiValueHeaders := [], QueryStringParameters := []
    MultiValueQueryStringParameters := [], PathParameters := [], StageVariables := []
    RequestContext := (), Body := body, IsBase64Encoded := false }

/-- A body with the three fields in the documented order. -/
def bodyInOrder : String :=
  "\x7b\"bucket\":\"kyc\",\"selfieImage\":\"me.jpg\",\"documentImage\":\"id.jpg\"\x7d"

/-- The same three fields, in the reverse order. -/
def bodyReversed : String :=
  "\x7b\"documentImage\":\"id.jpg\",\"selfieImage\":\"me.jpg\",\"bucket\":\"kyc\"\x7d"

/-! ## Auxiliary lemmas -/

theorem marshalString_message :
    marshalString "KYC Documents Analysis Results" = "\"KYC Documents Analysis Results\"" := by
  decide

theorem marshalResponse_ok {FD CFO : Type} (encFD : FD → Except String String)
    (encCFO : CFO → Except String String) (A B : FD) (C : CFO) (a b c : String)
    (ha : encFD A = .ok a) (hb : encFD B = .ok b) (hc : encCFO C = .ok c) :
    marshalResponse encFD encCFO
      { Message := "KYC Documents Analysis Results"
        Result := { SelfieDetails := A, DocumentFaceDetails := B, SelfieMatchesDocument := C } }
      = .ok (successBody a b c) := by
  simp only [marshalResponse, marshalResult, ha, hb, hc, marshalString_message, successBody]
  congr 1
  apply String.ext
  simp [String.data_append]

theorem firstOrZero {FD : Type} (d : FD) (l : List FD) :
    (if l.length > 0 then l.headD d else d) = l.headD d := by
  cases l <;> simp

theorem headD_congr {FD : Type} (d : FD) (l l' : List FD) (h : l.head? = l'.head?) :
    l.headD d = l'.headD d := by
  cases l <;> cases l' <;> simp_all

theorem errorContext_append_inj (a b : Step) (e e' : String)
    (h : errorContext a ++ e = errorContext b ++ e') : a = b := by
  have h2 := congrArg String.data h
  cases a <;> cases b <;> first
    | rfl
    | (exfalso; simp [errorContext, String.data_append] at h2)

/-! ## Theorems -/

/-- C1: when the body does not decode, `Handler` answers status 400 with the
body `Invalid request body` and a nil error, and issues no remote call (the
call list is empty and the service state is untouched). -/
theorem Handler_malformed_body {σ Sess FD CFO Ctx : Type} [Inhabited FD]
    (env : Env σ Sess FD CFO) (request : APIGatewayProxyRequest Ctx) (s0 : σ) (e : String)
    (hdec : env.Unmarshal request.Body = .error e) :
    (Handler env request s0).response.StatusCode = 400 ∧
    (Handler env request s0).response.Body = "Invalid request body" ∧
    (Handler env request s0).err = none ∧
    (Handler env request s0).calls = [] ∧
    (Handler env request s0).state = s0 := by
  simp [Handler, hdec]

theorem Handler_malformed_body_witness :
    (scripted (.ok ()) (.ok [1]) (.ok [2]) (.ok 3)).Unmarshal
        (stubRequest "POST" [] "not json").Body = .error "unexpected end of JSON input" ∧
    (Handler (scripted (.ok ()) (.ok [1]) (.ok [2]) (.ok 3))
        (stubRequest "POST" [] "not json") 0).response.StatusCode = 400 ∧
    (Handler (scripted (.ok ()) (.ok [1]) (.ok [2]) (.ok 3))
        (stubRequest "POST" [] "not json") 0).calls = [] :=
  have h := Handler_malformed_body (scripted (.ok ()) (.ok [1]) (.ok [2]) (.ok 3))
    (stubRequest "POST" [] "not json") 0 "unexpected end of JSON input" rfl
  ⟨rfl, h.1, h.2.2.2.1⟩

/-- C2, as stated, fails: a decodable request and a service that answers the
two detections and the comparison do not suffice for a status 200.  In the
first run the selfie record (record `7`) has no JSON encoding: the client is
constructed and the three calls are answered, yet `Handler` returns status 500
and the encoding error.  In the second run the service would answer in the
same way, but the session constructor fails: `Handler` returns status 500 and
issues no call. -/
theorem Handler_answers_do_not_suffice :
    ((scripted (.ok ()) (.ok [7]) (.ok [2]) (.ok 3)).Unmarshal
        (stubRequest "POST" [] bodyInOrder).Body
      = .ok { Bucket := "kyc", SelfieImage := "me.jpg", DocumentImage := "id.jpg" } ∧
    (scripted (.ok ()) (.ok [7]) (.ok [2]) (.ok 3)).NewSession { Region := "us-east-1" } 0
      = (.ok (), 0) ∧
    (scripted (.ok ()) (.ok [7]) (.ok [2]) (.ok 3)).DetectFaces ()
        (detectInput "kyc" "me.jpg") 0 = (.ok { FaceDetails := [7] }, 1) ∧
    (scripted (.ok ()) (.ok [7]) (.ok [2]) (.ok 3)).DetectFaces ()
        (detectInput "kyc" "id.jpg") 1 = (.ok { FaceDetails := [2] }, 2) ∧
    (scripted (.ok ()) (.ok [7]) (.ok [2]) (.ok 3)).CompareFaces ()
        (compareInput "kyc" "id.jpg" "me.jpg") 2 = (.ok 3, 3) ∧
    (Handler (scripted (.ok ()) (.ok [7]) (.ok [2]) (.ok 3))
        (stubRequest "POST" [] bodyInOrder) 0).response = { StatusCode := 500, Body := "" } ∧
    (Handler (scripted (.ok ()) (.ok [7]) (.ok [2]) (.ok 3))
        (stubRequest "POST" [] bodyInOrder) 0).err
      = some "error marshalling response: json: unsupported value: NaN") ∧
    ((scripted (.error "failed to load shared config") (.ok [1]) (.ok [2]) (.ok 3)).Unmarshal
        (stubRequest "POST" [] bodyInOrder).Body
      = .ok { Bucket := "kyc", SelfieImage := "me.jpg", DocumentImage := "id.jpg" } ∧
    (scripted (.error "failed to load shared config") (.ok [1]) (.ok [2]) (.ok 3)).DetectFaces ()
        (detectInput "kyc" "me.jpg") 0 = (.ok { FaceDetails := [1] }, 1) ∧
    (scripted (.error "failed to load shared config") (.ok [1]) (.ok [2]) (.ok 3)).DetectFaces ()
        (detectInput "kyc" "id.jpg") 1 = (.ok { FaceDetails := [2] }, 2) ∧
    (scripted (.error "failed to load shared config") (.ok [1]) (.ok [2]) (.ok 3)).CompareFaces ()
        (compareInput "kyc" "id.jpg" "me.jpg") 2 = (.ok 3, 3) ∧
    (Handler (scripted (.error "failed to load shared config") (.ok [1]) (.ok [2]) (.ok 3))
        (stubRequest "POST" [] bodyInOrder) 0).response = { StatusCode := 500, Body := "" } ∧
    (Handler (scripted (.error "failed to load shared config") (.ok [1]) (.ok [2]) (.ok 3))
        (stubRequest "POST" [] bodyInOrder) 0).err
      = some "error creating rekognition session : failed to load shared config") :=
  ⟨⟨rfl, rfl, rfl, rfl, rfl, by decide, by decide⟩, ⟨rfl, rfl, rfl, rfl, by decide, by decide⟩⟩

/-- C2, amended: for a decodable request handled on a constructed client, and
a service that answers the selfie detection with the single record `A`, the
document detection with the single record `B` and the comparison with `C`,
the three records having the JSON encodings `a`, `b` and `c`, `Handler`
returns a nil error and the response with status 200, the single header
`Content-Type: application/json` and the body
`{"message":"KYC Documents Analysis Results","result":{"selfieDetails":a,
"documentFaceDetails":b,"selfieMatchesDocument":c}}`, keys in that order. -/
theorem Handler_success {σ Sess FD CFO Ctx : Type} [Inhabited FD]
    (env : Env σ Sess FD CFO) (request : APIGatewayProxyRequest Ctx) (s0 s1 s2 s3 s4 : σ)
    (req : S3ImageDetailsRequest) (svc : Sess) (A B : FD) (C : CFO) (a b c : String)
    (hdec : env.Unmarshal request.Body = .ok req)
    (hsess : env.NewSession { Region := "us-east-1" } s0 = (.ok svc, s1))
    (hselfie : env.DetectFaces svc (detectInput req.Bucket req.SelfieImage) s1
      = (.ok { FaceDetails := [A] }, s2))
    (hdoc : env.DetectFaces svc (detectInput req.Bucket req.DocumentImage) s2
      = (.ok { FaceDetails := [B] }, s3))
    (hcmp : env.CompareFaces svc (compareInput req.Bucket req.DocumentImage req.SelfieImage) s3
      = (.ok C, s4))
    (ha : env.MarshalFaceDetail A = .ok a) (hb : env.MarshalFaceDetail B = .ok b)
    (hc : env.MarshalCompareFacesOutput C = .ok c) :
    (Handler env request s0).err = none ∧
    (Handler env request s0).response =
      { StatusCode := 200
        Headers := [("Content-Type", "application/json")]
        Body := "\x7b\"message\":\"KYC Documents Analysis Results\",\"result\":\x7b\"selfieDetails\":"
          ++ a ++ ",\"documentFaceDetails\":" ++ b ++ ",\"selfieMatchesDocument\":" ++ c
          ++ "\x7d\x7d" } := by
  have hm := marshalResponse_ok env.MarshalFaceDetail env.MarshalCompareFacesOutput A B C a b c
    ha hb hc
  simp only [detectInput] at hselfie hdoc
  simp only [compareInput] at hcmp
  simp [Handler, hdec, hsess, hselfie, hdoc, hcmp, hm, successBody]

theorem Handler_success_witness :
    (Handler (scripted (.ok ()) (.ok [1]) (.ok [2]) (.ok 3))
        (stubRequest "POST" [] bodyInOrder) 0).err = none ∧
    (Handler (scripted (.ok ()) (.ok [1]) (.ok [2]) (.ok 3))
        (stubRequest "POST" [] bodyInOrder) 0).response =
      { StatusCode := 200
        Headers := [("Content-Type", "application/json")]
        Body := "\x7b\"message\":\"KYC Documents Analysis Results\",\"result\":\x7b\"selfieDetails\":"
          ++ "\x7b\"Id\":1\x7d" ++ ",\"documentFaceDetails\":" ++ "\x7b\"Id\":2\x7d"
          ++ ",\"selfieMatchesDocument\":" ++ "\x7b\"Id\":3\x7d" ++ "\x7d\x7d" } :=
  Handler_success (scripted (.ok ()) (.ok [1]) (.ok [2]) (.ok 3))
    (stubRequest "POST" [] bodyInOrder) 0 0 1 2 3
    { Bucket := "kyc", SelfieImage := "me.jpg", DocumentImage := "id.jpg" } () 1 2 3
    "\x7b\"Id\":1\x7d" "\x7b\"Id\":2\x7d" "\x7b\"Id\":3\x7d"
    rfl rfl rfl rfl rfl rfl rfl rfl

/-- C3: whenever a comparison call is among the calls of an invocation, the
body decoded to some request and the call carries (bucket, documentImage) as
its source image and (bucket, selfieImage) as its target image, the fields
being those of the decoded request.  The body is arbitrary, so the order in
which it lists the fields plays no part. -/
theorem Handler_compare_source_target {σ Sess FD CFO Ctx : Type} [Inhabited FD]
    (env : Env σ Sess FD CFO) (request : APIGatewayProxyRequest Ctx) (s0 : σ)
    (input : CompareFacesInput)
    (h : RemoteCall.CompareFaces input ∈ (Handler env request s0).calls) :
    ∃ req, env.Unmarshal request.Body = .ok req ∧
      input.SourceImage = { S3Object := { Bucket := req.Bucket, Name := req.DocumentImage } } ∧
      input.TargetImage = { S3Object := { Bucket := req.Bucket, Name := req.SelfieImage } } := by
  cases hdec : env.Unmarshal request.Body with
  | error e => simp [Handler, hdec] at h
  | ok req =>
    refine ⟨req, rfl, ?_⟩
    simp only [Handler, hdec] at h
    repeat' split at h
    all_goals simp at h
    all_goals simp [h]

theorem Handler_compare_source_target_witness :
    ∃ req, (scripted (.ok ()) (.ok [1]) (.ok [2]) (.ok 3)).Unmarshal
        (stubRequest "POST" [] bodyReversed).Body = .ok req ∧
      (compareInput "kyc" "id.jpg" "me.jpg").SourceImage
        = { S3Object := { Bucket := req.Bucket, Name := req.DocumentImage } } ∧
      (compareInput "kyc" "id.jpg" "me.jpg").TargetImage
        = { S3Object := { Bucket := req.Bucket, Name := req.SelfieImage } } :=
  Handler_compare_source_target (scripted (.ok ()) (.ok [1]) (.ok [2]) (.ok 3))
    (stubRequest "POST" [] bodyReversed) 0 (compareInput "kyc" "id.jpg" "me.jpg") (by decide)

/-- C4: for a decodable request handled on a constructed client, (a) if the
selfie detection fails, the selfie detection is the only remote call; (b) if
it succeeds and the document detection fails, the two detections are the only
remote calls; (c) if both succeed and the comparison fails, the three calls
were issued; and in all three cases the response is the status-500 response
with an empty body and the returned error is not nil. -/
theorem Handler_fail_fast {σ Sess FD CFO Ctx : Type} [Inhabited FD]
    (env : Env σ Sess FD CFO) (request : APIGatewayProxyRequest Ctx) (s0 s1 : σ)
    (req : S3ImageDetailsRequest) (svc : Sess)
    (hdec : env.Unmarshal request.Body = .ok req)
    (hsess : env.NewSession { Region := "us-east-1" } s0 = (.ok svc, s1)) :
    (∀ e s2,
      env.DetectFaces svc (detectInput req.Bucket req.SelfieImage) s1 = (.error e, s2) →
      (Handler env request s0).calls
        = [.DetectFaces (detectInput req.Bucket req.SelfieImage)] ∧
      (Handler env request s0).response = { StatusCode := 500, Body := "" } ∧
      (Handler env request s0).err ≠ none) ∧
    (∀ out1 s2 e s3,
      env.DetectFaces svc (detectInput req.Bucket req.SelfieImage) s1 = (.ok out1, s2) →
      env.DetectFaces svc (detectInput req.Bucket req.DocumentImage) s2 = (.error e, s3) →
      (Handler env request s0).calls
        = [.DetectFaces (detectInput req.Bucket req.SelfieImage),
           .DetectFaces (detectInput req.Bucket req.DocumentImage)] ∧
      (Handler env request s0).response = { StatusCode := 500, Body := "" } ∧
      (Handler env request s0).err ≠ none) ∧
    (∀ out1 s2 out2 s3 e s4,
      env.DetectFaces svc (detectInput req.Bucket req.SelfieImage) s1 = (.ok out1, s2) →
      env.DetectFaces svc (detectInput req.Bucket req.DocumentImage) s2 = (.ok out2, s3) →
      env.CompareFaces svc (compareInput req.Bucket req.DocumentImage req.SelfieImage) s3
        = (.error e, s4) →
      (Handler env request s0).calls
        = [.DetectFaces (detectInput req.Bucket req.SelfieImage),
           .DetectFaces (detectInput req.Bucket req.DocumentImage),
           .CompareFaces (compareInput req.Bucket req.DocumentImage req.SelfieImage)] ∧
      (Handler env request s0).response = { StatusCode := 500, Body := "" } ∧
      (Handler env request s0).err ≠ none) := by
  simp only [detectInput, compareInput]
  refine ⟨?_, ?_, ?_⟩
  · intro e s2 h1
    simp [Handler, hdec, hsess, h1]
  · intro out1 s2 e s3 h1 h2
    simp [Handler, hdec, hsess, h1, h2]
  · intro out1 s2 out2 s3 e s4 h1 h2 h3
    simp [Handler, hdec, hsess, h1, h2, h3]

theorem Handler_fail_fast_witness :
    (Handler (scripted (.ok ()) (.error "request timed out") (.ok [2]) (.ok 3))
        (stubRequest "POST" [] bodyInOrder) 0).calls
      = [.DetectFaces (detectInput "kyc" "me.jpg")] ∧
    (Handler (scripted (.ok ()) (.error "request timed out") (.ok [2]) (.ok 3))
        (stubRequest "POST" [] bodyInOrder) 0).response = { StatusCode := 500, Body := "" } ∧
    (Handler (scripted (.ok ()) (.error "request timed out") (.ok [2]) (.ok 3))
        (stubRequest "POST" [] bodyInOrder) 0).err ≠ none :=
  (Handler_fail_fast (scripted (.ok ()) (.error "request timed out") (.ok [2]) (.ok 3))
    (stubRequest "POST" [] bodyInOrder) 0 0
    { Bucket := "kyc", SelfieImage := "me.jpg", DocumentImage := "id.jpg" } () rfl rfl).1
    "request timed out" 1 rfl

/-- C5: the status is 200 exactly when the body decodes, the client is
constructed, the selfie detection, the document detection and the comparison
all succeed, and the response assembled from their results encodes; in every
other case the response is one of two constants, the status-400 response with
body `Invalid request body` or the status-500 response with an empty body, so
it carries nothing of what earlier calls returned. -/
theorem Handler_status_200_iff {σ Sess FD CFO Ctx : Type} [Inhabited FD]
    (env : Env σ Sess FD CFO) (request : APIGatewayProxyRequest Ctx) (s0 : σ) :
    ((Handler env request s0).response.StatusCode = 200 ↔
      ∃ req svc s1 out1 s2 out2 s3 C s4 body,
        env.Unmarshal request.Body = .ok req ∧
        env.NewSession { Region := "us-east-1" } s0 = (.ok svc, s1) ∧
        env.DetectFaces svc (detectInput req.Bucket req.SelfieImage) s1 = (.ok out1, s2) ∧
        env.DetectFaces svc (detectInput req.Bucket req.DocumentImage) s2 = (.ok out2, s3) ∧
        env.CompareFaces svc (compareInput req.Bucket req.DocumentImage req.SelfieImage) s3
          = (.ok C, s4) ∧
        marshalResponse env.MarshalFaceDetail env.MarshalCompareFacesOutput
          { Message := "KYC Documents Analysis Results"
            Result := { SelfieDetails := out1.FaceDetails.headD default
                        DocumentFaceDetails := out2.FaceDetails.headD default
                        SelfieMatchesDocument := C } } = .ok body) ∧
    ((Handler env request s0).response.StatusCode ≠ 200 →
      (Handler env request s0).response = { StatusCode := 400, Body := "Invalid request body" } ∨
      (Handler env request s0).response = { StatusCode := 500, Body := "" }) := by
  simp only [detectInput, compareInput]
  cases hdec : env.Unmarshal request.Body with
  | error e => simp [Handler, hdec]
  | ok req =>
    rcases hsess : env.NewSession { Region := "us-east-1" } s0 with ⟨_ | svc, s1⟩
    · simp [Handler, hdec, hsess]
    · rcases h1 : env.DetectFaces svc
        { Image := { S3Object := { Bucket := req.Bucket, Name := req.SelfieImage } } } s1
        with ⟨_ | out1, s2⟩
      · simp [Handler, hdec, hsess, h1]
      · rcases h2 : env.DetectFaces svc
          { Image := { S3Object := { Bucket := req.Bucket, Name := req.DocumentImage } } } s2
          with ⟨_ | out2, s3⟩
        · simp [Handler, hdec, hsess, h1, h2]
        · rcases h3 : env.CompareFaces svc
            { SourceImage := { S3Object := { Bucket := req.Bucket, Name := req.DocumentImage } }
              TargetImage := { S3Object := { Bucket := req.Bucket, Name := req.SelfieImage } } } s3
            with ⟨_ | C, s4⟩
          · simp [Handler, hdec, hsess, h1, h2, h3]
          · cases h4 : marshalResponse env.MarshalFaceDetail env.MarshalCompareFacesOutput
              { Message := "KYC Documents Analysis Results"
                Result := { SelfieDetails := out1.FaceDetails.headD default
                            DocumentFaceDetails := out2.FaceDetails.headD default
                            SelfieMatchesDocument := C } } with
            | error e =>
              have hH : (Handler env request s0).response = { StatusCode := 500 } := by
                simp only [Handler, hdec, hsess, h1, h2, h3, firstOrZero, h4]
              rw [hH]
              refine ⟨⟨fun h => absurd h (by decide), ?_⟩, fun _ => Or.inr rfl⟩
              rintro ⟨req', svc', s1', out1', s2', out2', s3', C', s4', body', hd, hs, h1', h2', h3',
                h4'⟩
              cases hd
              cases hs
              rw [h1] at h1'
              cases h1'
              rw [h2] at h2'
              cases h2'
              rw [h3] at h3'
              cases h3'
              rw [h4] at h4'
              cases h4'
            | ok body =>
              have hH : (Handler env request s0).response = okResponse body := by
                simp only [Handler, hdec, hsess, h1, h2, h3, firstOrZero, h4, okResponse]
              rw [hH]
              exact ⟨⟨fun _ => ⟨req, svc, s1, out1, s2, out2, s3, C, s4, body, rfl, rfl, h1, h2, h3,
                h4⟩, fun _ => rfl⟩, fun h => absurd rfl h⟩

theorem Handler_status_200_iff_witness :
    (Handler (scripted (.ok ()) (.ok [1]) (.ok [2]) (.error "access denied"))
        (stubRequest "POST" [] bodyInOrder) 0).response
      = { StatusCode := 400, Body := "Invalid request body" } ∨
    (Handler (scripted (.ok ()) (.ok [1]) (.ok [2]) (.error "access denied"))
        (stubRequest "POST" [] bodyInOrder) 0).response = { StatusCode := 500, Body := "" } :=
  (Handler_status_200_iff (scripted (.ok ()) (.ok [1]) (.ok [2]) (.error "access denied"))
    (stubRequest "POST" [] bodyInOrder) 0).2 (by decide)

/-- C6, as stated, fails: after an empty selfie list, success of the document
detection and of the comparison does not suffice for a status 200.  In this
run the selfie detection answers with no face, the document detection and the
comparison both succeed and all three calls are issued, but the document
record (record `7`) has no JSON encoding: `Handler` returns status 500 with
the encoding error. -/
theorem Handler_empty_selfie_unencodable_document :
    (scripted (.ok ()) (.ok []) (.ok [7]) (.ok 3)).Unmarshal
        (stubRequest "POST" [] bodyInOrder).Body
      = .ok { Bucket := "kyc", SelfieImage := "me.jpg", DocumentImage := "id.jpg" } ∧
    (scripted (.ok ()) (.ok []) (.ok [7]) (.ok 3)).NewSession { Region := "us-east-1" } 0
      = (.ok (), 0) ∧
    (scripted (.ok ()) (.ok []) (.ok [7]) (.ok 3)).DetectFaces ()
        (detectInput "kyc" "me.jpg") 0 = (.ok { FaceDetails := [] }, 1) ∧
    (scripted (.ok ()) (.ok []) (.ok [7]) (.ok 3)).DetectFaces ()
        (detectInput "kyc" "id.jpg") 1 = (.ok { FaceDetails := [7] }, 2) ∧
    (scripted (.ok ()) (.ok []) (.ok [7]) (.ok 3)).CompareFaces ()
        (compareInput "kyc" "id.jpg" "me.jpg") 2 = (.ok 3, 3) ∧
    (Handler (scripted (.ok ()) (.ok []) (.ok [7]) (.ok 3))
        (stubRequest "POST" [] bodyInOrder) 0).calls
      = [.DetectFaces (detectInput "kyc" "me.jpg"), .DetectFaces (detectInput "kyc" "id.jpg"),
         .CompareFaces (compareInput "kyc" "id.jpg" "me.jpg")] ∧
    (Handler (scripted (.ok ()) (.ok []) (.ok [7]) (.ok 3))
        (stubRequest "POST" [] bodyInOrder) 0).response = { StatusCode := 500, Body := "" } ∧
    (Handler (scripted (.ok ()) (.ok []) (.ok [7]) (.ok 3))
        (stubRequest "POST" [] bodyInOrder) 0).err
      = some "error marshalling response: json: unsupported value: NaN" :=
  ⟨rfl, rfl, rfl, rfl, rfl, by decide, by decide, by decide⟩

/-- C6, amended: when the selfie detection succeeds with an empty face list,
(1) the document detection is issued next; (2) the error returned, if any, is
not the one of the selfie step; (3) when the document detection succeeds the
comparison is issued as the third call; (4) when the comparison succeeds too
and the records of the response have JSON encodings (`z` for the zero-valued
face record, `b` for the document record, `c` for the comparison record), the
response has status 200 and a nil error, and its `selfieDetails` is `z`, the
encoding of the zero-valued face record. -/
theorem Handler_selfie_without_face {σ Sess FD CFO Ctx : Type} [Inhabited FD]
    (env : Env σ Sess FD CFO) (request : APIGatewayProxyRequest Ctx) (s0 s1 s2 : σ)
    (req : S3ImageDetailsRequest) (svc : Sess)
    (hdec : env.Unmarshal request.Body = .ok req)
    (hsess : env.NewSession { Region := "us-east-1" } s0 = (.ok svc, s1))
    (hselfie : env.DetectFaces svc (detectInput req.Bucket req.SelfieImage) s1
      = (.ok { FaceDetails := [] }, s2)) :
    (∃ rest, (Handler env request s0).calls
      = .DetectFaces (detectInput req.Bucket req.SelfieImage)
        :: .DetectFaces (detectInput req.Bucket req.DocumentImage) :: rest) ∧
    (∀ e, (Handler env request s0).err ≠ some (errorContext .selfie ++ e)) ∧
    (∀ out2 s3,
      env.DetectFaces svc (detectInput req.Bucket req.DocumentImage) s2 = (.ok out2, s3) →
      (Handler env request s0).calls
        = [.DetectFaces (detectInput req.Bucket req.SelfieImage),
           .DetectFaces (detectInput req.Bucket req.DocumentImage),
           .CompareFaces (compareInput req.Bucket req.DocumentImage req.SelfieImage)]) ∧
    (∀ out2 s3 C s4 z b c,
      env.DetectFaces svc (detectInput req.Bucket req.DocumentImage) s2 = (.ok out2, s3) →
      env.CompareFaces svc (compareInput req.Bucket req.DocumentImage req.SelfieImage) s3
        = (.ok C, s4) →
      env.MarshalFaceDetail default = .ok z →
      env.MarshalFaceDetail (out2.FaceDetails.headD default) = .ok b →
      env.MarshalCompareFacesOutput C = .ok c →
      (Handler env request s0).response = okResponse (successBody z b c) ∧
      (Handler env request s0).err = none) := by
  simp only [detectInput, compareInput] at *
  have key : ∀ out2 s3,
      env.DetectFaces svc
        { Image := { S3Object := { Bucket := req.Bucket, Name := req.DocumentImage } } } s2
        = (.ok out2, s3) →
      (Handler env request s0).calls
        = [.DetectFaces { Image := { S3Object := { Bucket := req.Bucket, Name := req.SelfieImage } } },
           .DetectFaces { Image := { S3Object := { Bucket := req.Bucket, Name := req.DocumentImage } } },
           .CompareFaces
            { SourceImage := { S3Object := { Bucket := req.Bucket, Name := req.DocumentImage } }
              TargetImage := { S3Object := { Bucket := req.Bucket, Name := req.SelfieImage } } }] := by
    intro out2 s3 h2
    simp only [Handler, hdec, hsess, hselfie, h2]
    split
    · rfl
    · split <;> rfl
  refine ⟨?_, ?_, key, ?_⟩
  · rcases h2 : env.DetectFaces svc
      { Image := { S3Object := { Bucket := req.Bucket, Name := req.DocumentImage } } } s2
      with ⟨_ | out2, s3⟩
    · exact ⟨[], by simp only [Handler, hdec, hsess, hselfie, h2]⟩
    · exact ⟨_, key out2 s3 h2⟩
  · intro e
    have hne : ∀ (x : Step) (e' : String), x ≠ .selfie →
        some (errorContext x ++ e') ≠ some (errorContext .selfie ++ e) := by
      intro x e' hx h
      exact hx (errorContext_append_inj _ _ _ _ (Option.some.inj h))
    simp only [Handler, hdec, hsess, hselfie]
    split
    · exact hne .document _ (by decide)
    · split
      · exact hne .compare _ (by decide)
      · split
        · exact hne .encode _ (by decide)
        · simp
  · intro out2 s3 C s4 z b c h2 h3 hz hb hc
    have hm := marshalResponse_ok env.MarshalFaceDetail env.MarshalCompareFacesOutput
      default (out2.FaceDetails.headD default) C z b c hz hb hc
    simp only [Handler, hdec, hsess, hselfie, h2, h3, firstOrZero, List.headD_nil, ite_self, hm,
      okResponse]
    exact ⟨trivial, trivial⟩

theorem Handler_selfie_without_face_witness :
    (Handler (scripted (.ok ()) (.ok []) (.ok [2]) (.ok 3))
        (stubRequest "POST" [] bodyInOrder) 0).response
      = okResponse (successBody "\x7b\"Id\":0\x7d" "\x7b\"Id\":2\x7d" "\x7b\"Id\":3\x7d") ∧
    (Handler (scripted (.ok ()) (.ok []) (.ok [2]) (.ok 3))
        (stubRequest "POST" [] bodyInOrder) 0).err = none :=
  (Handler_selfie_without_face (scripted (.ok ()) (.ok []) (.ok [2]) (.ok 3))
    (stubRequest "POST" [] bodyInOrder) 0 0 1
    { Bucket := "kyc", SelfieImage := "me.jpg", DocumentImage := "id.jpg" } () rfl rfl rfl).2.2.2
    { FaceDetails := [2] } 2 3 3 "\x7b\"Id\":0\x7d" "\x7b\"Id\":2\x7d" "\x7b\"Id\":3\x7d"
    rfl rfl rfl rfl rfl

/-- C7, as stated, fails: a body that decodes does not suffice for the selfie
detection to be issued.  When the session constructor fails, `Handler` returns
status 500 and issues no remote call at all, although the body decoded. -/
theorem Handler_no_call_without_session :
    (scripted (.error "failed to load shared config") (.ok [1]) (.ok [2]) (.ok 3)).Unmarshal
        (stubRequest "POST" [] bodyInOrder).Body
      = .ok { Bucket := "kyc", SelfieImage := "me.jpg", DocumentImage := "id.jpg" } ∧
    (Handler (scripted (.error "failed to load shared config") (.ok [1]) (.ok [2]) (.ok 3))
        (stubRequest "POST" [] bodyInOrder) 0).response.StatusCode = 500 ∧
    RemoteCall.DetectFaces (detectInput "kyc" "me.jpg") ∉
      (Handler (scripted (.error "failed to load shared config") (.ok [1]) (.ok [2]) (.ok 3))
        (stubRequest "POST" [] bodyInOrder) 0).calls ∧
    (Handler (scripted (.error "failed to load shared config") (.ok [1]) (.ok [2]) (.ok 3))
        (stubRequest "POST" [] bodyInOrder) 0).calls = [] := by
  refine ⟨rfl, ?_, ?_, ?_⟩ <;> decide

/-- C7, amended: for every body that decodes, whatever the decoded fields are
(empty strings included), `Handler` does not return status 400, and whenever
the client is constructed its first remote call is the selfie detection with
exactly the decoded bucket and selfieImage values. -/
theorem Handler_decoded_fields_pass_through {σ Sess FD CFO Ctx : Type} [Inhabited FD]
    (env : Env σ Sess FD CFO) (request : APIGatewayProxyRequest Ctx) (s0 : σ)
    (req : S3ImageDetailsRequest)
    (hdec : env.Unmarshal request.Body = .ok req) :
    (Handler env request s0).response.StatusCode ≠ 400 ∧
    (∀ svc s1, env.NewSession { Region := "us-east-1" } s0 = (.ok svc, s1) →
      ∃ rest, (Handler env request s0).calls
        = .DetectFaces (detectInput req.Bucket req.SelfieImage) :: rest) := by
  simp only [detectInput]
  constructor
  · simp only [Handler, hdec]
    repeat' split
    all_goals simp
  · intro svc s1 hsess
    simp only [Handler, hdec, hsess]
    repeat' split
    all_goals exact ⟨_, rfl⟩

theorem Handler_decoded_fields_pass_through_witness :
    (Handler (scripted (.ok ()) (.ok [1]) (.ok [2]) (.ok 3))
        (stubRequest "POST" [] "\x7b\x7d") 0).response.StatusCode ≠ 400 ∧
    ∃ rest, (Handler (scripted (.ok ()) (.ok [1]) (.ok [2]) (.ok 3))
        (stubRequest "POST" [] "\x7b\x7d") 0).calls
      = .DetectFaces (detectInput "" "") :: rest :=
  have h := Handler_decoded_fields_pass_through (scripted (.ok ()) (.ok [1]) (.ok [2]) (.ok 3))
    (stubRequest "POST" [] "\x7b\x7d") 0 { Bucket := "", SelfieImage := "", DocumentImage := "" }
    rfl
  ⟨h.1, h.2 () 0 rfl⟩

/-- C8: (1) when the selfie detection returns a non-empty list and the
invocation succeeds, the `selfieDetails` of the response is the JSON text of
the first element of that list; (2) likewise `documentFaceDetails` is the JSON
text of the first element of a non-empty document list; (3) replacing the
detection operation by one whose answers differ at most in the faces after
the first changes nothing in the run: same response, error and calls. -/
theorem Handler_first_face_only {σ Sess FD CFO Ctx : Type} [Inhabited FD]
    (env : Env σ Sess FD CFO) (request : APIGatewayProxyRequest Ctx) (s0 : σ) :
    (∀ req svc s1 x xs s2 out2 s3 C s4 a b c,
      env.Unmarshal request.Body = .ok req →
      env.NewSession { Region := "us-east-1" } s0 = (.ok svc, s1) →
      env.DetectFaces svc (detectInput req.Bucket req.SelfieImage) s1
        = (.ok { FaceDetails := x :: xs }, s2) →
      env.DetectFaces svc (detectInput req.Bucket req.DocumentImage) s2 = (.ok out2, s3) →
      env.CompareFaces svc (compareInput req.Bucket req.DocumentImage req.SelfieImage) s3
        = (.ok C, s4) →
      env.MarshalFaceDetail x = .ok a →
      env.MarshalFaceDetail (out2.FaceDetails.headD default) = .ok b →
      env.MarshalCompareFacesOutput C = .ok c →
      (Handler env request s0).response = okResponse (successBody a b c)) ∧
    (∀ req svc s1 out1 s2 y ys s3 C s4 a b c,
      env.Unmarshal request.Body = .ok req →
      env.NewSession { Region := "us-east-1" } s0 = (.ok svc, s1) →
      env.DetectFaces svc (detectInput req.Bucket req.SelfieImage) s1 = (.ok out1, s2) →
      env.DetectFaces svc (detectInput req.Bucket req.DocumentImage) s2
        = (.ok { FaceDetails := y :: ys }, s3) →
      env.CompareFaces svc (compareInput req.Bucket req.DocumentImage req.SelfieImage) s3
        = (.ok C, s4) →
      env.MarshalFaceDetail (out1.FaceDetails.headD default) = .ok a →
      env.MarshalFaceDetail y = .ok b →
      env.MarshalCompareFacesOutput C = .ok c →
      (Handler env request s0).response = okResponse (successBody a b c)) ∧
    (∀ detect : Sess → DetectFacesInput → σ → Except String (DetectFacesOutput FD) × σ,
      (∀ svc input s, SameFirstFace (env.DetectFaces svc input s) (detect svc input s)) →
      Handler { env with DetectFaces := detect } request s0 = Handler env request s0) := by
  simp only [detectInput, compareInput]
  refine ⟨?_, ?_, ?_⟩
  · intro req svc s1 x xs s2 out2 s3 C s4 a b c hdec hs h1 h2 h3 ha hb hc
    have hm := marshalResponse_ok env.MarshalFaceDetail env.MarshalCompareFacesOutput
      x (out2.FaceDetails.headD default) C a b c ha hb hc
    simp only [Handler, hdec, hs, h1, h2, h3, firstOrZero]
    simp only [List.headD_cons, hm, okResponse]
  · intro req svc s1 out1 s2 y ys s3 C s4 a b c hdec hs h1 h2 h3 ha hb hc
    have hm := marshalResponse_ok env.MarshalFaceDetail env.MarshalCompareFacesOutput
      (out1.FaceDetails.headD default) y C a b c ha hb hc
    simp only [Handler, hdec, hs, h1, h2, h3, firstOrZero]
    simp only [List.headD_cons, hm, okResponse]
  · intro detect hrel
    cases hdec : env.Unmarshal request.Body with
    | error e => simp only [Handler, hdec]
    | ok req =>
      rcases hsess : env.NewSession { Region := "us-east-1" } s0 with ⟨_ | svc, s1⟩
      · simp only [Handler, hdec, hsess]
      · have r1 := hrel svc
          { Image := { S3Object := { Bucket := req.Bucket, Name := req.SelfieImage } } } s1
        rcases h1 : env.DetectFaces svc
          { Image := { S3Object := { Bucket := req.Bucket, Name := req.SelfieImage } } } s1
          with ⟨_ | out1, s2⟩ <;>
        rcases h1' : detect svc
          { Image := { S3Object := { Bucket := req.Bucket, Name := req.SelfieImage } } } s1
          with ⟨_ | out1', s2'⟩ <;>
        simp only [SameFirstFace, h1, h1'] at r1
        · obtain ⟨rfl, rfl⟩ := r1
          simp only [Handler, hdec, hsess, h1, h1']
        · exact r1.2.elim
        · exact r1.2.elim
        · obtain ⟨rfl, hh1⟩ := r1
          have e1 := headD_congr default _ _ hh1
          have r2 := hrel svc
            { Image := { S3Object := { Bucket := req.Bucket, Name := req.DocumentImage } } } s2
          rcases h2 : env.DetectFaces svc
            { Image := { S3Object := { Bucket := req.Bucket, Name := req.DocumentImage } } } s2
            with ⟨_ | out2, s3⟩ <;>
          rcases h2' : detect svc
            { Image := { S3Object := { Bucket := req.Bucket, Name := req.DocumentImage } } } s2
            with ⟨_ | out2', s3'⟩ <;>
          simp only [SameFirstFace, h2, h2'] at r2
          · obtain ⟨rfl, rfl⟩ := r2
            simp only [Handler, hdec, hsess, h1, h1', h2, h2']
          · exact r2.2.elim
          · exact r2.2.elim
          · obtain ⟨rfl, hh2⟩ := r2
            have e2 := headD_congr default _ _ hh2
            simp only [Handler, hdec, hsess, h1, h1', h2, h2', firstOrZero]
            rw [e1, e2]

theorem Handler_first_face_only_witness :
    (Handler (scripted (.ok ()) (.ok [1, 5, 4]) (.ok [2, 6]) (.ok 3))
        (stubRequest "POST" [] bodyInOrder) 0).response
      = okResponse (successBody "\x7b\"Id\":1\x7d" "\x7b\"Id\":2\x7d" "\x7b\"Id\":3\x7d") :=
  (Handler_first_face_only (scripted (.ok ()) (.ok [1, 5, 4]) (.ok [2, 6]) (.ok 3))
    (stubRequest "POST" [] bodyInOrder) 0).1
    { Bucket := "kyc", SelfieImage := "me.jpg", DocumentImage := "id.jpg" } () 0 1 [5, 4] 1
    { FaceDetails := [2, 6] } 2 3 3 "\x7b\"Id\":1\x7d" "\x7b\"Id\":2\x7d" "\x7b\"Id\":3\x7d"
    rfl rfl rfl rfl rfl rfl rfl rfl

/-- C9: for a decodable request, a failure of client construction, of the
selfie detection, of the document detection, of the comparison or of the
response encoding yields status 500 and the error message made of that step's
context text followed by the text of the underlying error; the five context
texts are pairwise distinct; and two messages built from the contexts of two
steps are equal only if the steps are the same, whatever the underlying
errors, so the message determines the failing step. -/
theorem Handler_error_names_step {σ Sess FD CFO Ctx : Type} [Inhabited FD]
    (env : Env σ Sess FD CFO) (request : APIGatewayProxyRequest Ctx) (s0 : σ)
    (req : S3ImageDetailsRequest)
    (hdec : env.Unmarshal request.Body = .ok req) :
    (∀ e s1, env.NewSession { Region := "us-east-1" } s0 = (.error e, s1) →
      (Handler env request s0).response.StatusCode = 500 ∧
      (Handler env request s0).err = some (errorContext .session ++ e)) ∧
    (∀ svc s1 e s2, env.NewSession { Region := "us-east-1" } s0 = (.ok svc, s1) →
      env.DetectFaces svc (detectInput req.Bucket req.SelfieImage) s1 = (.error e, s2) →
      (Handler env request s0).response.StatusCode = 500 ∧
      (Handler env request s0).err = some (errorContext .selfie ++ e)) ∧
    (∀ svc s1 out1 s2 e s3, env.NewSession { Region := "us-east-1" } s0 = (.ok svc, s1) →
      env.DetectFaces svc (detectInput req.Bucket req.SelfieImage) s1 = (.ok out1, s2) →
      env.DetectFaces svc (detectInput req.Bucket req.DocumentImage) s2 = (.error e, s3) →
      (Handler env request s0).response.StatusCode = 500 ∧
      (Handler env request s0).err = some (errorContext .document ++ e)) ∧
    (∀ svc s1 out1 s2 out2 s3 e s4, env.NewSession { Region := "us-east-1" } s0 = (.ok svc, s1) →
      env.DetectFaces svc (detectInput req.Bucket req.SelfieImage) s1 = (.ok out1, s2) →
      env.DetectFaces svc (detectInput req.Bucket req.DocumentImage) s2 = (.ok out2, s3) →
      env.CompareFaces svc (compareInput req.Bucket req.DocumentImage req.SelfieImage) s3
        = (.error e, s4) →
      (Handler env request s0).response.StatusCode = 500 ∧
      (Handler env request s0).err = some (errorContext .compare ++ e)) ∧
    (∀ svc s1 out1 s2 out2 s3 C s4 e, env.NewSession { Region := "us-east-1" } s0 = (.ok svc, s1) →
      env.DetectFaces svc (detectInput req.Bucket req.SelfieImage) s1 = (.ok out1, s2) →
      env.DetectFaces svc (detectInput req.Bucket req.DocumentImage) s2 = (.ok out2, s3) →
      env.CompareFaces svc (compareInput req.Bucket req.DocumentImage req.SelfieImage) s3
        = (.ok C, s4) →
      marshalResponse env.MarshalFaceDetail env.MarshalCompareFacesOutput
        { Message := "KYC Documents Analysis Results"
          Result := { SelfieDetails := out1.FaceDetails.headD default
                      DocumentFaceDetails := out2.FaceDetails.headD default
                      SelfieMatchesDocument := C } } = .error e →
      (Handler env request s0).response.StatusCode = 500 ∧
      (Handler env request s0).err = some (errorContext .encode ++ e)) ∧
    (∀ a b : Step, a ≠ b → errorContext a ≠ errorContext b) ∧
    (∀ (a b : Step) (e e' : String), errorContext a ++ e = errorContext b ++ e' → a = b) := by
  simp only [detectInput, compareInput]
  refine ⟨?_, ?_, ?_, ?_, ?_, ?_, errorContext_append_inj⟩
  · intro e s1 hs
    simp only [Handler, hdec, hs, errorContext]
    exact ⟨trivial, trivial⟩
  · intro svc s1 e s2 hs h1
    simp only [Handler, hdec, hs, h1, errorContext]
    exact ⟨trivial, trivial⟩
  · intro svc s1 out1 s2 e s3 hs h1 h2
    simp only [Handler, hdec, hs, h1, h2, errorContext]
    exact ⟨trivial, trivial⟩
  · intro svc s1 out1 s2 out2 s3 e s4 hs h1 h2 h3
    simp only [Handler, hdec, hs, h1, h2, h3, errorContext]
    exact ⟨trivial, trivial⟩
  · intro svc s1 out1 s2 out2 s3 C s4 e hs h1 h2 h3 h4
    simp only [Handler, hdec, hs, h1, h2, h3, firstOrZero, h4, errorContext]
    exact ⟨trivial, trivial⟩
  · intro a b hab h
    exact hab (errorContext_append_inj a b "" "" (by rw [h]))

theorem Handler_error_names_step_witness :
    (Handler (scripted (.ok ()) (.ok [1]) (.ok [7]) (.ok 3))
        (stubRequest "POST" [] bodyInOrder) 0).response.StatusCode = 500 ∧
    (Handler (scripted (.ok ()) (.ok [1]) (.ok [7]) (.ok 3))
        (stubRequest "POST" [] bodyInOrder) 0).err
      = some (errorContext .encode ++ "json: unsupported value: NaN") :=
  (Handler_error_names_step (scripted (.ok ()) (.ok [1]) (.ok [7]) (.ok 3))
    (stubRequest "POST" [] bodyInOrder) 0
    { Bucket := "kyc", SelfieImage := "me.jpg", DocumentImage := "id.jpg" } rfl).2.2.2.2.1
    () 0 { FaceDetails := [1] } 1 { FaceDetails := [7] } 2 3 3 "json: unsupported value: NaN"
    rfl rfl rfl rfl rfl

/-- C10: two requests with the same body, whatever their other fields, given
the same environment and service state, produce the same run: the same remote
calls with the same arguments in the same order, the same response and the
same error (and the same log lines and final service state). -/
theorem Handler_only_reads_body {σ Sess FD CFO Ctx : Type} [Inhabited FD]
    (env : Env σ Sess FD CFO) (r1 r2 : APIGatewayProxyRequest Ctx) (s0 : σ)
    (h : r1.Body = r2.Body) :
    Handler env r1 s0 = Handler env r2 s0 := by
  unfold Handler
  rw [h]

theorem Handler_only_reads_body_witness :
    Handler (scripted (.ok ()) (.ok [1]) (.ok [2]) (.ok 3))
        (stubRequest "POST" [] bodyInOrder) 0
      = Handler (scripted (.ok ()) (.ok [1]) (.ok [2]) (.ok 3))
        (stubRequest "GET" [("X-Forwarded-For", "203.0.113.9")] bodyInOrder) 0 :=
  Handler_only_reads_body (scripted (.ok ()) (.ok [1]) (.ok [2]) (.ok 3))
    (stubRequest "POST" [] bodyInOrder)
    (stubRequest "GET" [("X-Forwarded-For", "203.0.113.9")] bodyInOrder) 0 rfl

end KycHandler
